import Mathlib

/-
Verification development for the japan-stock-search-app financial pipeline.

The heart of the program is `utils.py`: a safe-division helper, an EDINET
document locator, an XBRL series extractor with concept synthesis, a period
selector, and a metrics engine.  Numeric values (Python floats) are modelled
as rationals; Python `Optional[float]` becomes `Option ℚ`; Python dicts keyed
by dates become association lists.  Python truthiness of a number (`x or d`
yields `d` when `x` is `None` or `0`) is modelled explicitly by `orD` and
`orNone`.
-/

namespace StockApp

/-- Python `x or d` for an optional number: `None` and `0` are falsy. -/
def orD (a : Option ℚ) (d : ℚ) : ℚ :=
  match a with
  | none => d
  | some x => if x = 0 then d else x

/-- Python `x or None` for an optional number: maps `Some 0` to `none`. -/
def orNone (a : Option ℚ) : Option ℚ :=
  match a with
  | none => none
  | some x => if x = 0 then none else some x

/-- Embedding of `_safe_div` (utils.py lines 29-35): returns `None` when the
numerator is `None` or the denominator is `None` or `0`; otherwise the exact
quotient. -/
def safeDiv (a b : Option ℚ) : Option ℚ :=
  match a, b with
  | none, _ => none
  | _, none => none
  | some x, some y => if y = 0 then none else some (x / y)

/-- A financial snapshot: the fixed key set of the app-internal payload
(`build_payload` in utils.py); every concept value is optional. -/
structure Snapshot where
  sales : Option ℚ := none
  cogs : Option ℚ := none
  op : Option ℚ := none
  ord : Option ℚ := none
  net : Option ℚ := none
  ocf : Option ℚ := none
  fcf : Option ℚ := none
  assets : Option ℚ := none
  equity : Option ℚ := none
  ca : Option ℚ := none
  inv : Option ℚ := none
  cl : Option ℚ := none
  tl : Option ℚ := none
  debt : Option ℚ := none
  cash : Option ℚ := none
  ar : Option ℚ := none
  stinv : Option ℚ := none
  invest : Option ℚ := none
  ppe : Option ℚ := none
  intan : Option ℚ := none
  shares : Option ℚ := none
  price : Option ℚ := none
  ebitda : Option ℚ := none
  tax : Option ℚ := none
  wacc : Option ℚ := none
deriving DecidableEq, Repr

/-- `HEALTH_THRESHOLDS` from constants.py. -/
def equityRatioMin : ℚ := 4/5

def debtToEquityMax : ℚ := 2

def currentRatioMin : ℚ := 1

def quickRatioMin : ℚ := 1

def fixedRatioMax : ℚ := 1

/-- The `1e9` sentinel substituted for a missing ratio in `<=`-style checks. -/
def sentinel : ℚ := 1000000000

/-- One row of the health table: label, raw ratio, threshold text, verdict. -/
structure HealthRow where
  label : String
  ratio : Option ℚ
  threshold : String
  verdict : String
deriving DecidableEq, Repr

/-- Embedding of `calc_health` (utils.py lines 432-447): the five ratios and
their OK/NG verdicts.  `(x or 0)` and `(x or 1e9)` are the Python truthiness
defaults applied to the optional ratio before comparison. -/
def calcHealth (c : Snapshot) : List HealthRow :=
  let equity_ratio := safeDiv c.equity c.assets
  let debt_to_equity := safeDiv (orNone c.tl) c.equity
  let current_ratio := safeDiv c.ca c.cl
  let quick_assets := orD c.ca 0 - orD c.inv 0
  let quick_ratio := safeDiv (some quick_assets) c.cl
  let fixed_assets := orD c.ppe 0 + orD c.intan 0 + orD c.invest 0
  let fixed_ratio := safeDiv (some fixed_assets) c.equity
  [ ⟨"自己資本比率", equity_ratio, ">= 80.0%",
      if orD equity_ratio 0 ≥ equityRatioMin then "OK" else "NG"⟩,
    ⟨"負債比率", debt_to_equity, "<= 2.00x",
      if orD debt_to_equity sentinel ≤ debtToEquityMax then "OK" else "NG"⟩,
    ⟨"流動比率", current_ratio, ">= 1.00x",
      if orD current_ratio 0 ≥ currentRatioMin then "OK" else "NG"⟩,
    ⟨"当座比率", quick_ratio, ">= 1.00x",
      if orD quick_ratio 0 ≥ quickRatioMin then "OK" else "NG"⟩,
    ⟨"固定比率", fixed_ratio, "<= 1.00x",
      if orD fixed_ratio sentinel ≤ fixedRatioMax then "OK" else "NG"⟩ ]

/-- The six ratios computed by `calc_profitability` (utils.py lines 452-462). -/
structure ProfitRatios where
  gm : Option ℚ
  opm : Option ℚ
  orm : Option ℚ
  nm : Option ℚ
  roe : Option ℚ
  roa : Option ℚ
deriving DecidableEq, Repr

/-- Embedding of the ratio block of `calc_profitability`:
`sales = current.get("sales") or 0`, `gross = (sales or 0) - (cogs or 0)`,
each margin guarded by Python truthiness of `sales`. -/
def calcProfitability (c : Snapshot) : ProfitRatios :=
  let sales := orD c.sales 0
  let gross := orD c.sales 0 - orD c.cogs 0
  let gm := if sales ≠ 0 then safeDiv (some gross) (some sales) else none
  let opm := if sales ≠ 0 then safeDiv c.op (some sales) else none
  let orm := if sales ≠ 0 ∧ c.ord ≠ none then safeDiv c.ord (some sales) else none
  let nm := if sales ≠ 0 then safeDiv c.net (some sales) else none
  let roe := safeDiv c.net c.equity
  let roa := safeDiv c.net c.assets
  ⟨gm, opm, orm, nm, roe, roa⟩

/-- Result of `calc_asset_value`: both fields are plain numbers. -/
structure AssetValue where
  adjusted_assets : ℚ
  liquidation_value : ℚ
deriving DecidableEq, Repr

/-- Embedding of `calc_asset_value` (utils.py lines 530-541): each component
is defaulted to `0` via Python `or 0` before weighting. -/
def calcAssetValue (c : Snapshot) : AssetValue :=
  let adj := orD c.cash 0 + orD c.stinv 0 + (17/20) * orD c.ar 0
    + (1/2) * orD c.inv 0 + (1/2) * orD c.ppe 0
    + 0 * orD c.intan 0 + (1/2) * orD c.invest 0
  ⟨adj, adj - orD c.tl 0⟩

/-- `DEFAULT_WACC` from constants.py. -/
def DEFAULT_WACC : ℚ := 1/10

/-- `BULL_GROWTH` from constants.py (the value the app passes). -/
def BULL_GROWTH : ℚ := 1/5

/-- `DCF_HORIZON_YEARS` from constants.py. -/
def DCF_HORIZON_YEARS : Nat := 10

/-- Result record of `calc_income_value`. -/
structure IncomeValue where
  weak_simple : ℚ
  strong_simple : ℚ
  weak_dcf : ℚ
  strong_dcf : ℚ
deriving DecidableEq, Repr

/-- `pv_cf` inside `calc_income_value`. -/
def pv_cf (cf r : ℚ) (t : Nat) : ℚ := cf / (1 + r) ^ t

/-- The list `[a, a+1, ..., a+n-1]`. -/
def rangeFrom (a : Nat) : Nat → List Nat
  | 0 => []
  | n + 1 => a :: rangeFrom (a + 1) n

/-- Python `range(a, b)`. -/
def pyRange (a b : Nat) : List Nat := rangeFrom a (b - a)

/-- Embedding of `calc_income_value` (utils.py lines 543-556), parameterised
by the bull-growth configuration constant (the source reads the module-level
`BULL_GROWTH`); `wacc` is `current.get("wacc") or DEFAULT_WACC` and the sums
mirror the Python `range(1, 11)`, `range(1, 6)` and `range(6, 11)` loops. -/
def calcIncomeValue (bullGrowth : ℚ) (c : Snapshot) : IncomeValue :=
  let wacc := orD c.wacc DEFAULT_WACC
  let fcf := orD c.fcf 0
  let netcash := orD c.cash 0 + orD c.stinv 0 - orD c.debt 0
  let weak := netcash + (if wacc ≠ 0 then fcf / wacc else 0)
  let strong := if wacc ≠ 0 then netcash + fcf * (1 + bullGrowth) ^ 5 / wacc else netcash
  let weak_pv := ((pyRange 1 (DCF_HORIZON_YEARS + 1)).map (fun t => pv_cf fcf wacc t)).sum
    + (fcf / wacc) / (1 + wacc) ^ DCF_HORIZON_YEARS
  let strong_fcf5 := fcf * (1 + bullGrowth) ^ 5
  let strong_pv :=
    ((pyRange 1 6).map (fun t => pv_cf (fcf * (1 + bullGrowth) ^ t) wacc t)).sum
    + ((pyRange 6 (DCF_HORIZON_YEARS + 1)).map (fun t => pv_cf strong_fcf5 wacc t)).sum
    + (strong_fcf5 / wacc) / (1 + wacc) ^ DCF_HORIZON_YEARS
  ⟨weak, strong, netcash + weak_pv, netcash + strong_pv⟩

/-- The income-value calculation as the app actually runs it, with the
configured `BULL_GROWTH`. -/
def calcIncomeValueApp (c : Snapshot) : IncomeValue := calcIncomeValue BULL_GROWTH c

/-! ## Document Locator -/

/-- Does the character list `hay` start with `needle`? -/
def listStartsWith : List Char → List Char → Bool
  | _, [] => true
  | [], _ :: _ => false
  | a :: as, b :: bs => a == b && listStartsWith as bs

/-- Does `needle` occur as a contiguous run inside `hay`?  (Python `in`.) -/
def listContains : List Char → List Char → Bool
  | [], needle => needle.isEmpty
  | a :: rest, needle => listStartsWith (a :: rest) needle || listContains rest needle

/-- Python `needle in hay` on strings. -/
def strContains (hay needle : String) : Bool := listContains hay.data needle.data

/-- Python `s.zfill(4)` for the digit-only security codes used here. -/
def zfill4 (s : String) : String :=
  if s.length < 4 then String.mk (List.replicate (4 - s.length) '0') ++ s else s

/-- One EDINET document-index record, with the fields the locator reads;
every field the API may omit is optional. -/
structure Doc where
  docID : String := ""
  ordinanceCode : Option String := none
  formCode : Option String := none
  secCode : Option String := none
  title : Option String := none
  docDescription : Option String := none
  submitDateTime : Option String := none
  periodEnd : Option String := none
deriving DecidableEq, Repr

/-- `EDINET_FORMS` from constants.py: (ordinance code, form code, name),
in priority order annual > quarterly > semi-annual. -/
def EDINET_FORMS : List (String × String × String) :=
  [("010", "030000", "有価証券報告書"),
   ("010", "043000", "四半期報告書"),
   ("010", "053000", "半期報告書")]

/-- Python `s or d` on an optional string: `None` and `""` are falsy. -/
def orStr (a : Option String) (d : String) : String :=
  match a with
  | none => d
  | some s => if s = "" then d else s

/-- The sort key `x.get("submitDateTime") or x.get("periodEnd") or ""`. -/
def sortKey (r : Doc) : String := orStr r.submitDateTime (orStr r.periodEnd "")

/-- Stable insertion into a list sorted by descending `sortKey`: mirrors the
stability of Python `list.sort(key=..., reverse=True)`. -/
def insertByKeyDesc (a : Doc) : List Doc → List Doc
  | [] => [a]
  | b :: l => if sortKey a < sortKey b then b :: insertByKeyDesc a l else a :: b :: l

/-- Stable sort by descending `sortKey`. -/
def sortByKeyDesc : List Doc → List Doc
  | [] => []
  | a :: l => insertByKeyDesc a (sortByKeyDesc l)

/-- `match_sec` inside `edinet_pick_latest_doc` (utils.py lines 145-167):
exact security-code match, then substring-in-title, then zero-padded
variants for short codes.  A falsy (`None`/empty) search code matches all. -/
def matchSec (sec : Option String) (r : Doc) : Bool :=
  match sec with
  | none => true
  | some s =>
    if s = "" then true
    else
      let docSec := (r.secCode).getD ""
      let title := (r.title).getD ""
      if docSec == s then true
      else if strContains title s then true
      else if s.length < 4 then
        let padded := zfill4 s
        docSec == padded || strContains title padded
      else false

/-- One tier of the priority loop: the documents matching the given
ordinance code, form code and predicate. -/
def tierFilter (p : Doc → Bool) (results : List Doc) (oc fc : String) : List Doc :=
  results.filter (fun r => r.ordinanceCode == some oc && r.formCode == some fc && p r)

/-- The tier-priority loop shared by both locator routines: take the first
form tier with any match and return its document with the greatest sort key. -/
def pickFromForms (p : Doc → Bool) (results : List Doc) :
    List (String × String × String) → Option Doc
  | [] => none
  | (oc, fc, _) :: rest =>
    let tier := tierFilter p results oc fc
    if tier.isEmpty then pickFromForms p results rest
    else (sortByKeyDesc tier).head?

/-- Embedding of `edinet_pick_latest_doc` (utils.py lines 144-186): the
returned value of the priority loop (the trailing branch only prints). -/
def edinetPickLatestDoc (results : List Doc) (sec : Option String) : Option Doc :=
  pickFromForms (matchSec sec) results EDINET_FORMS

/-- `match_sec` inside `edinet_pick_latest_doc_debug` (utils.py lines 67-92):
four search patterns substring-checked against security code, title and
description. -/
def matchSecDebug (sec : Option String) (r : Doc) : Bool :=
  match sec with
  | none => true
  | some s =>
    if s = "" then true
    else
      let targets := [(r.secCode).getD "", (r.title).getD "", (r.docDescription).getD ""]
      let patterns := [s, zfill4 s, s ++ ".T", s ++ "0"]
      patterns.any (fun p => targets.any (fun t => strContains t p))

/-- The hard-coded company-name alias table of the debug locator. -/
def companyNames : List (String × List String) :=
  [("7203", ["トヨタ", "TOYOTA"]),
   ("8306", ["三菱UFJ", "MUFG"]),
   ("9984", ["ソフトバンク", "SoftBank"]),
   ("6758", ["ソニー", "SONY"])]

/-- Documents whose title or description contains the given company name. -/
def nameMatchesFilter (results : List Doc) (name : String) : List Doc :=
  results.filter (fun r =>
    strContains ((r.title).getD "") name || strContains ((r.docDescription).getD "") name)

/-- The company-name fallback loop of the debug locator: for each alias with
any name match, try the form tiers; on failure continue with the next alias. -/
def nameFallback (results : List Doc) : List String → Option Doc
  | [] => none
  | name :: rest =>
    let nm := nameMatchesFilter results name
    if nm.isEmpty then nameFallback results rest
    else
      match pickFromForms (fun _ => true) nm EDINET_FORMS with
      | some d => some d
      | none => nameFallback results rest

/-- Embedding of `edinet_pick_latest_doc_debug` (utils.py lines 65-142):
filter by the flexible matcher, fall back to the name-alias table when there
is no match and a code was given, then run the tier-priority loop. -/
def pickDebug (results : List Doc) (sec : Option String) : Option Doc :=
  let matching := results.filter (matchSecDebug sec)
  if matching.isEmpty && !((orStr sec "") = "") then
    match sec with
    | some s =>
      match companyNames.find? (fun q => q.1 == s) with
      | some (_, names) =>
        match nameFallback results names with
        | some d => some d
        | none => pickFromForms (fun _ => true) matching EDINET_FORMS
      | none => pickFromForms (fun _ => true) matching EDINET_FORMS
    | none => pickFromForms (fun _ => true) matching EDINET_FORMS
  else pickFromForms (fun _ => true) matching EDINET_FORMS

/-- `search_days = 90` in `autofill_financials_from_edinet`. -/
def searchDays : Nat := 90

/-- The day-scan bound `min(10, search_days)` of the search loop. -/
def scanLimit : Nat := min 10 searchDays

/-- The document-not-found condition raised by
`autofill_financials_from_edinet`: the searched identifier, the nominal
window length quoted in the message, and the per-day result counts
(day offset, number of index results that day). -/
structure NotFoundError where
  sec : Option String
  days : Nat
  testResults : List (Nat × Nat)
deriving DecidableEq, Repr

/-- The day-scan loop of `autofill_financials_from_edinet` (utils.py lines
364-407): starting at day offset `i` with `fuel` days remaining, query the
index, append the (day, count) pair, stop at the first document the debug
locator returns, and raise `NotFoundError` when the fuel runs out. -/
def searchAux (index : Nat → List Doc) (sec : Option String) :
    Nat → Nat → List (Nat × Nat) → Except NotFoundError Doc
  | 0, _, acc => .error ⟨sec, searchDays, acc⟩
  | fuel + 1, i, acc =>
    let results := index i
    let acc' := acc ++ [(i, results.length)]
    match pickDebug results sec with
    | some d => .ok d
    | none => searchAux index sec fuel (i + 1) acc'

/-- The document-search phase of `autofill_financials_from_edinet`:
`for i in range(0, min(10, search_days))`. -/
def autofillSearch (index : Nat → List Doc) (sec : Option String) :
    Except NotFoundError Doc :=
  searchAux index sec scanLimit 0 []

/-- The per-day (offset, result-count) list the scan accumulates when no
document is found, starting at day `i` for `fuel` days. -/
def expectedCounts (index : Nat → List Doc) : Nat → Nat → List (Nat × Nat)
  | _, 0 => []
  | i, fuel + 1 => (i, (index i).length) :: expectedCounts index (i + 1) fuel

/-! ## Fact series, concept synthesis and period selection

A per-concept date map (`{日付: 値}`) is an association list from dates
(encoded as `Nat`) to values; the concept dictionary is an association list
from concept key to date map, mirroring Python dict insertion order. -/

/-- A per-concept `{date: value}` dictionary. -/
abbrev DateMap := List (Nat × ℚ)

/-- Dict lookup `m.get(d)`. -/
def dget : DateMap → Nat → Option ℚ
  | [], _ => none
  | (k, v) :: rest, d => if k = d then some v else dget rest d

/-- Dict assignment `m[d] = v`: replace in place or append. -/
def dset : DateMap → Nat → ℚ → DateMap
  | [], d, v => [(d, v)]
  | (k, w) :: rest, d, v => if k = d then (d, v) :: rest else (k, w) :: dset rest d v

/-- The concept dictionary `series`: concept key → date map. -/
abbrev Series := List (String × DateMap)

/-- Dict lookup `series.get(k)`. -/
def sget : Series → String → Option DateMap
  | [], _ => none
  | (k', m) :: rest, k => if k' = k then some m else sget rest k

/-- `series.setdefault(k, {})[d] = v`: update the first entry with key `k`,
or append a fresh singleton entry at the end (Python dict insertion order). -/
def sSetdefaultInsert : Series → String → Nat → ℚ → Series
  | [], k, d, v => [(k, [(d, v)])]
  | (k', m) :: rest, k, d, v =>
    if k' = k then (k', dset m d v) :: rest else (k', m) :: sSetdefaultInsert rest k d v

/-- Recording an extracted fact, `series[key][end_date] = val`
(utils.py line 273); the key always exists in the initial series. -/
def recordFact (s : Series) (k : String) (d : Nat) (v : ℚ) : Series :=
  match sget s k with
  | some _ => sSetdefaultInsert s k d v
  | none => s

/-- `series.get(k, {}).get(d, 0.0)`. -/
def gv (s : Series) (k : String) (d : Nat) : ℚ := (dget ((sget s k).getD []) d).getD 0

/-- The borrowings sum read by the debt synthesis at a date:
short-term + long-term + bonds, absent components contributing `0`. -/
def gvsum (s : Series) (d : Nat) : ℚ :=
  gv s "debt_short" d + gv s "debt_long" d + gv s "bonds" d

/-- The debt-synthesis step of `parse_xbrl_series` (utils.py lines 278-282):
write `debt` at `d` only when the borrowings sum is non-zero. -/
def debtStep (s : Series) (d : Nat) : Series :=
  if gvsum s d ≠ 0 then sSetdefaultInsert s "debt" d (gvsum s d) else s

/-- The FCF-synthesis step (utils.py lines 284-285): `ocf - |capex|`, only
when both inputs exist at the date. -/
def fcfStep (s : Series) (d : Nat) : Series :=
  match dget ((sget s "ocf").getD []) d, dget ((sget s "capex").getD []) d with
  | some o, some c => sSetdefaultInsert s "fcf" d (o - |c|)
  | _, _ => s

/-- The EBITDA-synthesis step (utils.py lines 287-288): `op + |dep_amort|`,
only when both inputs exist at the date. -/
def ebitdaStep (s : Series) (d : Nat) : Series :=
  match dget ((sget s "op").getD []) d, dget ((sget s "dep_amort").getD []) d with
  | some o, some da => sSetdefaultInsert s "ebitda" d (o + |da|)
  | _, _ => s

/-- One iteration of the synthesis loop body, for one date. -/
def synthAt (s : Series) (d : Nat) : Series := ebitdaStep (fcfStep (debtStep s d) d) d

/-- The synthesis loop of `parse_xbrl_series` over the (set-valued, hence
duplicate-free) union of observed dates, in some iteration order. -/
def synthesize (s : Series) (dates : List Nat) : Series := dates.foldl synthAt s

/-- The keys of `XBRL_TAGS_LOCAL` (constants.py): the initial concept set of
`parse_xbrl_series`. -/
def xbrlKeys : List String :=
  ["sales", "cogs", "op", "ord", "net", "assets", "equity", "tl", "ca", "cl",
   "inv", "ar", "cash", "stinv", "invest", "ppe", "intan",
   "debt_short", "debt_long", "bonds", "ocf", "capex", "dep_amort", "shares"]

/-- `series = {k: {} for k in XBRL_TAGS_LOCAL.keys()}`. -/
def emptySeries : Series := xbrlKeys.map (fun k => (k, ([] : DateMap)))

/-- The accumulated union of observed dates,
`dates |= set(dmap.keys())` over all concept maps (duplicates harmless:
only `max` is taken). -/
def datesUnion (s : Series) : List Nat :=
  s.foldl (fun acc km => acc ++ km.2.map Prod.fst) []

/-- `max` of a list of dates, `none` on the empty list. -/
def listMax : List Nat → Option Nat
  | [] => none
  | x :: xs =>
    match listMax xs with
    | none => some x
    | some m => some (max x m)

/-- A snapshot as built by `pick_current_previous`: an association list over
the series' concept keys. -/
abbrev SnapList := List (String × Option ℚ)

/-- Key lookup in a snapshot list; `none` means the key itself is absent. -/
def skeyLookup (snap : SnapList) (k : String) : Option (Option ℚ) :=
  match snap with
  | [] => none
  | (k', v) :: rest => if k' = k then some v else skeyLookup rest k

/-- Embedding of `pick_current_previous` (utils.py lines 291-311): the
latest observed date is "current", the latest strictly-earlier date is
"previous"; `at_date(None)` is the empty dict. -/
def pickCurrentPrevious (s : Series) :
    SnapList × SnapList × Option Nat × Option Nat :=
  let dates := datesUnion s
  match listMax dates with
  | none => ([], [], none, none)
  | some latest =>
    let older := listMax (dates.filter (fun d => decide (d < latest)))
    let atDate : Option Nat → SnapList := fun d? =>
      match d? with
      | none => []
      | some d => s.map (fun km => (km.1, dget km.2 d))
    (atDate (some latest), atDate older, some latest, older)

/-! ## Theorems -/

/-- Claim C1: for every pair of inputs, the safe division returns null iff
the numerator is null, the denominator is null, or the denominator is zero;
in every other numeric case it returns exactly the quotient. -/
theorem c1_safe_div (a b : Option ℚ) :
    (safeDiv a b = none ↔ a = none ∨ b = none ∨ b = some 0) ∧
    (∀ x y : ℚ, a = some x → b = some y → y ≠ 0 → safeDiv a b = some (x / y)) := by
  constructor
  · rcases a with _ | x <;> rcases b with _ | y <;> simp [safeDiv] <;>
      by_cases hy : y = 0 <;> simp [hy]
  · rintro x y rfl rfl hy
    simp [safeDiv, hy]

/-- Witness for C1 at a concrete numeric input. -/
theorem c1_safe_div_witness : safeDiv (some 6) (some 3) = some 2 := by
  have h := (c1_safe_div (some 6) (some 3)).2 6 3 rfl rfl (by norm_num)
  have h2 : (6 : ℚ) / 3 = 2 := by norm_num
  rw [h2] at h
  exact h

/-- Python truthiness default at `0` is the identity on numbers. -/
theorem orD_some_zero (x : ℚ) : orD (some x) 0 = x := by
  by_cases h : x = 0 <;> simp [orD, h]

/-- Claim C8: with the bull-growth rate set to 0, the strong-case DCF
estimate equals the weak-case DCF estimate for every input snapshot. -/
theorem c8_dcf_growth_zero (c : Snapshot) :
    (calcIncomeValue 0 c).strong_dcf = (calcIncomeValue 0 c).weak_dcf := by
  simp only [calcIncomeValue, DCF_HORIZON_YEARS, pv_cf]
  norm_num [pyRange, rangeFrom]
  ring

/-- A `>=`-style health verdict with a positive threshold is NG on a null
ratio: the truthiness default substitutes `0`. -/
theorem verdict_ge_ng (r : Option ℚ) (thr : ℚ) (hthr : 0 < thr) (h : r = none) :
    (if orD r 0 ≥ thr then "OK" else "NG") = "NG" := by
  subst h
  simp [orD, hthr.not_le]

/-- A `<=`-style health verdict with a threshold below the sentinel is NG on
a null ratio: the truthiness default substitutes `1e9`. -/
theorem verdict_le_ng (r : Option ℚ) (thr : ℚ) (hthr : thr < sentinel) (h : r = none) :
    (if orD r sentinel ≤ thr then "OK" else "NG") = "NG" := by
  subst h
  simp [orD, not_le.mpr hthr]

/-- Claim C9: in every health-table row, a null ratio is counted against the
pass side (treated as `0` for the three `>=`-style checks and as the `1e9`
sentinel for the two `<=`-style checks), so a row whose ratio is null never
receives an OK verdict. -/
theorem c9_missing_ratio_ng (c : Snapshot) (row : HealthRow)
    (hmem : row ∈ calcHealth c) (hnull : row.ratio = none) :
    row.verdict = "NG" := by
  simp only [calcHealth, List.mem_cons, List.not_mem_nil, or_false] at hmem
  rcases hmem with h | h | h | h | h <;> subst h
  · exact verdict_ge_ng _ _ (by norm_num [equityRatioMin]) hnull
  · exact verdict_le_ng _ _ (by norm_num [debtToEquityMax, sentinel]) hnull
  · exact verdict_ge_ng _ _ (by norm_num [currentRatioMin]) hnull
  · exact verdict_ge_ng _ _ (by norm_num [quickRatioMin]) hnull
  · exact verdict_le_ng _ _ (by norm_num [fixedRatioMax, sentinel]) hnull

/-- Witness for C9: the all-missing snapshot's equity-ratio row. -/
theorem c9_missing_ratio_ng_witness :
    (⟨"自己資本比率", none, ">= 80.0%", "NG"⟩ : HealthRow).verdict = "NG" :=
  c9_missing_ratio_ng {} _
    (by
      apply List.mem_cons.mpr
      left
      norm_num [calcHealth, safeDiv, orD, equityRatioMin])
    rfl

/-- Claim C10: when total liabilities are present and exactly 0 and equity is
present, non-null and non-zero, the debt-to-equity health row receives
verdict NG: `current.get("tl") or None` coerces the zero numerator to null
before the division, although the ratio 0 would satisfy the `<= 2.0`
threshold. -/
theorem c10_zero_liabilities_ng (c : Snapshot) (e : ℚ)
    (htl : c.tl = some 0) (heq : c.equity = some e) (he : e ≠ 0) :
    (calcHealth c)[1]? = some ⟨"負債比率", none, "<= 2.00x", "NG"⟩ := by
  simp only [calcHealth, htl, orNone, safeDiv, List.getElem?_cons_succ,
    List.getElem?_cons_zero]
  norm_num [orD, sentinel, debtToEquityMax]

/-- Witness for C10 at a concrete snapshot. -/
theorem c10_zero_liabilities_ng_witness :
    (calcHealth { tl := some 0, equity := some 100 })[1]?
      = some ⟨"負債比率", none, "<= 2.00x", "NG"⟩ :=
  c10_zero_liabilities_ng _ 100 rfl rfl (by norm_num)

/-- A snapshot with null COGS, null inventory and null net income but
observed sales, current assets, current liabilities and cash. -/
def cexSnapshot : Snapshot :=
  { sales := some 1000, cogs := none, ca := some 100, inv := none,
    cl := some 50, cash := some 100 }

/-- Counterexample to claim C3: a null input concept is NOT always
propagated to a null result.  With COGS null the gross margin is `1`
(`(sales or 0) - (cogs or 0)` silently turns the null into `0`), with
inventory null the quick ratio is `ca / cl`, and the adjusted-assets total
is a plain number with the null components contributing `0`. -/
theorem c3_counterexample :
    cexSnapshot.cogs = none ∧ (calcProfitability cexSnapshot).gm = some 1 ∧
    cexSnapshot.inv = none ∧
    ((calcHealth cexSnapshot)[3]?).map HealthRow.ratio = some (some 2) ∧
    (calcAssetValue cexSnapshot).adjusted_assets = 100 := by
  refine ⟨rfl, ?_, rfl, ?_, ?_⟩
  · norm_num [calcProfitability, cexSnapshot, safeDiv, orD]
  · norm_num [calcHealth, cexSnapshot, safeDiv, orD]
  · norm_num [calcAssetValue, cexSnapshot, orD]

/-- Claim C3 as amended: a null concept propagates to a null result only
when it is used directly as the numerator or denominator of a safe division
(ROE and ROA are null when net income is null); in additive composites a
null component is replaced by `0`, so with null COGS the gross margin
equals `sales/sales = 1`, with null inventory the quick ratio equals
`ca/cl`, and the adjusted-assets total is always a plain number in which a
null component contributes `0`. -/
theorem c3_null_propagation (c : Snapshot) (s a b : ℚ)
    (hnet : c.net = none) (hcogs : c.cogs = none) (hsales : c.sales = some s)
    (hs : s ≠ 0) (hinv : c.inv = none) (hca : c.ca = some a) (hcl : c.cl = some b)
    (hb : b ≠ 0) :
    (calcProfitability c).roe = none ∧ (calcProfitability c).roa = none ∧
    (calcProfitability c).gm = some 1 ∧
    ((calcHealth c)[3]?).map HealthRow.ratio = some (some (a / b)) ∧
    (calcAssetValue c).adjusted_assets
      = orD c.cash 0 + orD c.stinv 0 + (17/20) * orD c.ar 0
        + (1/2) * orD c.ppe 0 + (1/2) * orD c.invest 0 := by
  refine ⟨?_, ?_, ?_, ?_, ?_⟩
  · simp [calcProfitability, hnet, safeDiv]
  · simp [calcProfitability, hnet, safeDiv]
  · simp only [calcProfitability, hsales, hcogs, orD_some_zero, orD]
    simp [safeDiv, hs, div_self hs]
  · simp only [calcHealth, hinv, hca, hcl, orD_some_zero, orD,
      List.getElem?_cons_succ, List.getElem?_cons_zero]
    simp only [safeDiv, hb, if_false]
    by_cases ha : a = 0 <;> simp [ha, hb]
  · simp only [calcAssetValue, hinv, orD]
    ring

/-- Witness for the amended C3 at the concrete counterexample snapshot. -/
theorem c3_null_propagation_witness :
    (calcProfitability cexSnapshot).roe = none ∧
    (calcProfitability cexSnapshot).roa = none ∧
    (calcProfitability cexSnapshot).gm = some 1 ∧
    ((calcHealth cexSnapshot)[3]?).map HealthRow.ratio = some (some (100 / 50)) ∧
    (calcAssetValue cexSnapshot).adjusted_assets
      = orD cexSnapshot.cash 0 + orD cexSnapshot.stinv 0
        + (17/20) * orD cexSnapshot.ar 0 + (1/2) * orD cexSnapshot.ppe 0
        + (1/2) * orD cexSnapshot.invest 0 :=
  c3_null_propagation cexSnapshot 1000 100 50 rfl rfl rfl (by norm_num) rfl rfl rfl
    (by norm_num)

/-- The raw extracted series of a document whose only resolvable fact is
`sales = 1000` at date 1: all 24 configured concepts initialised, no
borrowings, no cash-flow inputs. -/
def c2Raw : Series := recordFact emptySeries "sales" 1 1000

/-- The series after the synthesis loop over the single observed date. -/
def c2Series : Series := synthesize c2Raw (datesUnion c2Raw)

/-- Counterexample to claim C2: with a single observed date there is no
earlier date and the previous snapshot is the EMPTY mapping (no concept keys
at all), and the synthesized concept `debt` (never written because the
borrowings sum is zero) has no key even in the current snapshot, while a
primitive concept such as `sales` does. -/
theorem c2_counterexample :
    (pickCurrentPrevious c2Series).2.1 = [] ∧
    skeyLookup (pickCurrentPrevious c2Series).1 "debt" = none ∧
    skeyLookup (pickCurrentPrevious c2Series).1 "sales" = some (some 1000) := by
  have hsynth : c2Series = c2Raw := by
    simp [c2Series, c2Raw, synthesize, synthAt, debtStep, fcfStep, ebitdaStep,
      gvsum, gv, recordFact, emptySeries, xbrlKeys, sget, sSetdefaultInsert,
      dget, dset, datesUnion, listMax]
  rw [hsynth]
  refine ⟨?_, ?_, ?_⟩ <;>
    simp [pickCurrentPrevious, c2Raw, recordFact, emptySeries, xbrlKeys,
      sget, sSetdefaultInsert, dget, dset, datesUnion, listMax, skeyLookup]

/-- Claim C2 as amended: each snapshot built by the period selector contains
exactly the keys of the series mapping (the configured primitive concepts,
plus whichever of `debt`, `fcf`, `ebitda` were written for at least one
date), with a null value when the concept is unobserved at the chosen date;
but when no earlier date exists the previous snapshot is the empty mapping,
with no keys at all. -/
theorem c2_snapshot_keys (S : Series) (l : Nat)
    (hmax : listMax (datesUnion S) = some l) :
    (pickCurrentPrevious S).1 = S.map (fun km => (km.1, dget km.2 l)) ∧
    (∀ o : Nat, (pickCurrentPrevious S).2.2.2 = some o →
      (pickCurrentPrevious S).2.1 = S.map (fun km => (km.1, dget km.2 o))) ∧
    ((pickCurrentPrevious S).2.2.2 = none → (pickCurrentPrevious S).2.1 = []) := by
  refine ⟨?_, ?_, ?_⟩
  · simp only [pickCurrentPrevious, hmax]
  · intro o ho
    simp only [pickCurrentPrevious, hmax] at ho ⊢
    rw [ho]
  · intro ho
    simp only [pickCurrentPrevious, hmax] at ho ⊢
    rw [ho]

/-- Witness for the amended C2 at the single-date example series. -/
theorem c2_snapshot_keys_witness :
    (pickCurrentPrevious c2Raw).1 = c2Raw.map (fun km => (km.1, dget km.2 1)) ∧
    (∀ o : Nat, (pickCurrentPrevious c2Raw).2.2.2 = some o →
      (pickCurrentPrevious c2Raw).2.1 = c2Raw.map (fun km => (km.1, dget km.2 o))) ∧
    ((pickCurrentPrevious c2Raw).2.2.2 = none → (pickCurrentPrevious c2Raw).2.1 = []) :=
  c2_snapshot_keys c2Raw 1 (by decide)

/-- Every element of `insertByKeyDesc a l` is `a` or an element of `l`. -/
theorem mem_insertByKeyDesc {x a : Doc} {l : List Doc}
    (h : x ∈ insertByKeyDesc a l) : x = a ∨ x ∈ l := by
  induction l with
  | nil => simpa [insertByKeyDesc] using h
  | cons b t ih =>
    unfold insertByKeyDesc at h
    split at h
    · rcases List.mem_cons.mp h with h' | h'
      · exact Or.inr (h' ▸ List.mem_cons_self b t)
      · rcases ih h' with h'' | h''
        · exact Or.inl h''
        · exact Or.inr (List.mem_cons_of_mem b h'')
    · rcases List.mem_cons.mp h with h' | h'
      · exact Or.inl h'
      · exact Or.inr h'

/-- The descending sort only permutes: membership is preserved. -/
theorem mem_of_mem_sortByKeyDesc {x : Doc} {l : List Doc}
    (h : x ∈ sortByKeyDesc l) : x ∈ l := by
  induction l with
  | nil => simpa [sortByKeyDesc] using h
  | cons a t ih =>
    unfold sortByKeyDesc at h
    rcases mem_insertByKeyDesc h with h' | h'
    · exact h' ▸ List.mem_cons_self a t
    · exact List.mem_cons_of_mem a (ih h')

/-- Inserting into a list never yields the empty list. -/
theorem insertByKeyDesc_ne_nil (a : Doc) (l : List Doc) :
    insertByKeyDesc a l ≠ [] := by
  cases l with
  | nil => simp [insertByKeyDesc]
  | cons b t =>
    unfold insertByKeyDesc
    split <;> simp

/-- Sorting a non-empty list yields a non-empty list. -/
theorem sortByKeyDesc_ne_nil {l : List Doc} (h : l ≠ []) :
    sortByKeyDesc l ≠ [] := by
  cases l with
  | nil => exact absurd rfl h
  | cons a t => exact insertByKeyDesc_ne_nil a (sortByKeyDesc t)

/-- Claim C4: whenever the result set contains identifier-matching documents
in both the annual-securities-report tier (form 030000) and the
quarterly-report tier (form 043000), the locator selects an annual-report
document, regardless of how the submission timestamps compare. -/
theorem c4_tier_priority (results : List Doc) (sec : Option String) (da dq : Doc)
    (hda : da ∈ results) (ha1 : da.ordinanceCode = some "010")
    (ha2 : da.formCode = some "030000") (ham : matchSec sec da = true)
    (hdq : dq ∈ results) (hq1 : dq.ordinanceCode = some "010")
    (hq2 : dq.formCode = some "043000") (hqm : matchSec sec dq = true) :
    ∃ r, edinetPickLatestDoc results sec = some r ∧
      r.ordinanceCode = some "010" ∧ r.formCode = some "030000" := by
  have hmem : da ∈ tierFilter (matchSec sec) results "010" "030000" := by
    simp [tierFilter, List.mem_filter, hda, ha1, ha2, ham]
  have hne : tierFilter (matchSec sec) results "010" "030000" ≠ [] := by
    intro h
    rw [h] at hmem
    exact absurd hmem (List.not_mem_nil da)
  have hempty : (tierFilter (matchSec sec) results "010" "030000").isEmpty = false := by
    rcases h : (tierFilter (matchSec sec) results "010" "030000").isEmpty with _ | _
    · rfl
    · exact absurd (List.isEmpty_iff.mp h) hne
  obtain ⟨r, t, hsort⟩ :=
    List.exists_cons_of_ne_nil (sortByKeyDesc_ne_nil hne)
  have hpick : edinetPickLatestDoc results sec = some r := by
    unfold edinetPickLatestDoc EDINET_FORMS pickFromForms
    simp only [hempty, Bool.false_eq_true, if_false, hsort, List.head?_cons]
  have hrmem : r ∈ tierFilter (matchSec sec) results "010" "030000" :=
    mem_of_mem_sortByKeyDesc (hsort ▸ List.mem_cons_self r t)
  have hr := (List.mem_filter.mp hrmem).2
  simp only [Bool.and_eq_true, beq_iff_eq] at hr
  exact ⟨r, hpick, hr.1.1, hr.1.2⟩

/-- The annual-tier document of the C4 witness: earlier timestamp. -/
def c4DocAnnual : Doc :=
  { docID := "A", ordinanceCode := some "010", formCode := some "030000",
    secCode := some "7203", submitDateTime := some "2024-01-01 09:00" }

/-- The quarterly-tier document of the C4 witness: later timestamp. -/
def c4DocQuarterly : Doc :=
  { docID := "Q", ordinanceCode := some "010", formCode := some "043000",
    secCode := some "7203", submitDateTime := some "2024-06-01 09:00" }

/-- Witness for C4: the annual report wins although the quarterly report was
submitted later. -/
theorem c4_tier_priority_witness :
    ∃ r, edinetPickLatestDoc [c4DocQuarterly, c4DocAnnual] (some "7203") = some r ∧
      r.ordinanceCode = some "010" ∧ r.formCode = some "030000" :=
  c4_tier_priority [c4DocQuarterly, c4DocAnnual] (some "7203") c4DocAnnual
    c4DocQuarterly (by decide) rfl rfl (by decide) (by decide) rfl rfl (by decide)

/-- The tier-priority loop on a tier whose identifier-matching content is
exactly the two documents `d1, d2` (in result-set order) selects the one
with the greater sort key; every earlier tier must be empty. -/
theorem pickFromForms_pair (p : Doc → Bool) (results : List Doc) (d1 d2 : Doc)
    (forms : List (String × String × String))
    (hall : ∀ f ∈ forms, tierFilter p results f.1 f.2.1 = [] ∨
      tierFilter p results f.1 f.2.1 = [d1, d2])
    (hex : ∃ f ∈ forms, tierFilter p results f.1 f.2.1 = [d1, d2])
    (hkey : sortKey d1 < sortKey d2) :
    pickFromForms p results forms = some d2 := by
  induction forms with
  | nil =>
    rcases hex with ⟨f, hf, _⟩
    exact absurd hf (List.not_mem_nil f)
  | cons f rest ih =>
    obtain ⟨oc, fc, nm⟩ := f
    rcases hall _ (List.mem_cons_self _ _) with h0 | h0
    · unfold pickFromForms
      simp only [h0, List.isEmpty_nil, if_true]
      apply ih
      · intro g hg
        exact hall g (List.mem_cons_of_mem _ hg)
      · rcases hex with ⟨g, hg, hge⟩
        rcases List.mem_cons.mp hg with rfl | hg'
        · rw [h0] at hge
          exact absurd hge (by simp)
        · exact ⟨g, hg', hge⟩
    · unfold pickFromForms
      have hsort : sortByKeyDesc [d1, d2] = [d2, d1] := by
        simp [sortByKeyDesc, insertByKeyDesc, hkey]
      simp only [h0, hsort]
      rfl

/-- Claim C5: when the identifier-matching documents consist of exactly two
documents in the same form-type tier, the locator selects the one with the
lexicographically greater sort key — the submission timestamp, falling back
to the period-end when the timestamp is absent or empty. -/
theorem c5_tie_break (results : List Doc) (sec : Option String) (d1 d2 : Doc)
    (hall : ∀ f ∈ EDINET_FORMS, tierFilter (matchSec sec) results f.1 f.2.1 = [] ∨
      tierFilter (matchSec sec) results f.1 f.2.1 = [d1, d2])
    (hex : ∃ f ∈ EDINET_FORMS, tierFilter (matchSec sec) results f.1 f.2.1 = [d1, d2])
    (hkey : sortKey d1 < sortKey d2) :
    edinetPickLatestDoc results sec = some d2 :=
  pickFromForms_pair (matchSec sec) results d1 d2 EDINET_FORMS hall hex hkey

/-- First annual-tier document of the C5 witness: earlier timestamp. -/
def c5DocOld : Doc :=
  { docID := "A1", ordinanceCode := some "010", formCode := some "030000",
    secCode := some "7203", submitDateTime := some "2024-01-01 09:00" }

/-- Second annual-tier document of the C5 witness: later timestamp. -/
def c5DocNew : Doc :=
  { docID := "A2", ordinanceCode := some "010", formCode := some "030000",
    secCode := some "7203", submitDateTime := some "2024-06-01 09:00" }

/-- Witness for C5: between two annual reports the later submission wins. -/
theorem c5_tie_break_witness :
    edinetPickLatestDoc [c5DocOld, c5DocNew] (some "7203") = some c5DocNew :=
  c5_tie_break [c5DocOld, c5DocNew] (some "7203") c5DocOld c5DocNew
    (by decide) (by decide)
    (by
      simp [c5DocOld, c5DocNew, sortKey, orStr]
      decide)

/-- Writing a date into a date map makes it readable at that date. -/
theorem dget_dset_self (m : DateMap) (d : Nat) (v : ℚ) :
    dget (dset m d v) d = some v := by
  induction m with
  | nil => simp [dset, dget]
  | cons kv rest ih =>
    obtain ⟨k, w⟩ := kv
    by_cases h : k = d
    · simp [dset, h, dget]
    · simp [dset, h, dget, ih]

/-- Writing one date into a date map leaves every other date unchanged. -/
theorem dget_dset_ne (m : DateMap) {e d : Nat} (h : e ≠ d) (v : ℚ) :
    dget (dset m e v) d = dget m d := by
  induction m with
  | nil => simp [dset, dget, h]
  | cons kv rest ih =>
    obtain ⟨k, w⟩ := kv
    by_cases hk : k = e
    · subst hk
      simp [dset, dget, h]
    · by_cases hd : k = d
      · simp [dset, dget, hd, hk, Ne.symm h]
      · simp [dset, hk, dget, hd, ih]

/-- `setdefault`-insert at one concept key leaves every other key unchanged. -/
theorem sget_sdi_ne (s : Series) {k q : String} (h : q ≠ k) (d : Nat) (v : ℚ) :
    sget (sSetdefaultInsert s k d v) q = sget s q := by
  induction s with
  | nil => simp [sSetdefaultInsert, sget, Ne.symm h]
  | cons km rest ih =>
    obtain ⟨k0, m⟩ := km
    by_cases hk : k0 = k
    · subst hk
      simp [sSetdefaultInsert, sget, h, Ne.symm h]
    · by_cases hq : k0 = q
      · simp [sSetdefaultInsert, sget, hq, hk, h]
      · simp [sSetdefaultInsert, hk, sget, hq, ih]

/-- After `setdefault`-insert, the written concept reads back the written
value at the written date. -/
theorem dget_sdi_self (s : Series) (k : String) (d : Nat) (v : ℚ) :
    dget ((sget (sSetdefaultInsert s k d v) k).getD []) d = some v := by
  induction s with
  | nil => simp [sSetdefaultInsert, sget, dget]
  | cons km rest ih =>
    obtain ⟨k0, m⟩ := km
    by_cases hk : k0 = k
    · subst hk
      simp [sSetdefaultInsert, sget, dget_dset_self]
    · simp [sSetdefaultInsert, hk, sget, ih]

/-- After `setdefault`-insert at one date, the written concept's value at any
other date is unchanged. -/
theorem dget_sdi_ne_date (s : Series) (k : String) {e d : Nat} (h : e ≠ d) (v : ℚ) :
    dget ((sget (sSetdefaultInsert s k e v) k).getD []) d
      = dget ((sget s k).getD []) d := by
  induction s with
  | nil => simp [sSetdefaultInsert, sget, dget, h]
  | cons km rest ih =>
    obtain ⟨k0, m⟩ := km
    by_cases hk : k0 = k
    · subst hk
      simp [sSetdefaultInsert, sget, dget_dset_ne _ h]
    · simp [sSetdefaultInsert, hk, sget, ih]

/-- The debt-synthesis step touches only the `debt` key. -/
theorem sget_debtStep_ne (s : Series) (d : Nat) {k : String} (h : k ≠ "debt") :
    sget (debtStep s d) k = sget s k := by
  unfold debtStep
  split
  · exact sget_sdi_ne s h d _
  · rfl

/-- The FCF-synthesis step touches only the `fcf` key. -/
theorem sget_fcfStep_ne (s : Series) (d : Nat) {k : String} (h : k ≠ "fcf") :
    sget (fcfStep s d) k = sget s k := by
  unfold fcfStep
  split
  · exact sget_sdi_ne s h d _
  · rfl

/-- The EBITDA-synthesis step touches only the `ebitda` key. -/
theorem sget_ebitdaStep_ne (s : Series) (d : Nat) {k : String} (h : k ≠ "ebitda") :
    sget (ebitdaStep s d) k = sget s k := by
  unfold ebitdaStep
  split
  · exact sget_sdi_ne s h d _
  · rfl

/-- One synthesis iteration leaves every key other than the three
synthesized concepts unchanged. -/
theorem sget_synthAt_ne (s : Series) (d : Nat) {k : String}
    (h1 : k ≠ "debt") (h2 : k ≠ "fcf") (h3 : k ≠ "ebitda") :
    sget (synthAt s d) k = sget s k := by
  unfold synthAt
  rw [sget_ebitdaStep_ne _ _ h3, sget_fcfStep_ne _ _ h2, sget_debtStep_ne _ _ h1]

/-- The borrowings sum read at any date is unchanged by synthesis steps. -/
theorem gvsum_synthAt (s : Series) (e d : Nat) :
    gvsum (synthAt s e) d = gvsum s d := by
  unfold gvsum gv
  rw [sget_synthAt_ne s e (by decide) (by decide) (by decide),
    sget_synthAt_ne s e (by decide) (by decide) (by decide),
    sget_synthAt_ne s e (by decide) (by decide) (by decide)]

/-- A synthesis iteration for another date does not change the `debt` value
read at `d`. -/
theorem debt_lookup_synthAt_ne (s : Series) {e d : Nat} (h : e ≠ d) :
    dget ((sget (synthAt s e) "debt").getD []) d
      = dget ((sget s "debt").getD []) d := by
  unfold synthAt
  rw [sget_ebitdaStep_ne _ _ (by decide), sget_fcfStep_ne _ _ (by decide)]
  unfold debtStep
  split
  · exact dget_sdi_ne_date s "debt" h _
  · rfl

/-- The synthesis iteration for date `d` itself: the `debt` value at `d`
becomes the borrowings sum when that sum is non-zero, and is otherwise left
as it was. -/
theorem debt_lookup_synthAt_self (s : Series) (d : Nat) :
    dget ((sget (synthAt s d) "debt").getD []) d
      = if gvsum s d ≠ 0 then some (gvsum s d)
        else dget ((sget s "debt").getD []) d := by
  unfold synthAt
  rw [sget_ebitdaStep_ne _ _ (by decide), sget_fcfStep_ne _ _ (by decide)]
  by_cases hc : gvsum s d = 0
  · simp [debtStep, hc]
  · simp [debtStep, hc, dget_sdi_self]

/-- Folding the synthesis over any date list preserves all primitive keys. -/
theorem sget_synthesize_ne (dates : List Nat) (s : Series) {k : String}
    (h1 : k ≠ "debt") (h2 : k ≠ "fcf") (h3 : k ≠ "ebitda") :
    sget (synthesize s dates) k = sget s k := by
  induction dates generalizing s with
  | nil => rfl
  | cons d ds ih =>
    have hstep : synthesize s (d :: ds) = synthesize (synthAt s d) ds := rfl
    rw [hstep, ih (synthAt s d), sget_synthAt_ne s d h1 h2 h3]

/-- The borrowings sum read at any date is unchanged by the whole fold. -/
theorem gvsum_synthesize (dates : List Nat) (s : Series) (d : Nat) :
    gvsum (synthesize s dates) d = gvsum s d := by
  unfold gvsum gv
  rw [sget_synthesize_ne dates s (by decide) (by decide) (by decide),
    sget_synthesize_ne dates s (by decide) (by decide) (by decide),
    sget_synthesize_ne dates s (by decide) (by decide) (by decide)]

/-- Folding the synthesis over dates not containing `d` does not change the
`debt` value read at `d`. -/
theorem debt_lookup_synthesize_notmem (dates : List Nat) (s : Series) {d : Nat}
    (h : d ∉ dates) :
    dget ((sget (synthesize s dates) "debt").getD []) d
      = dget ((sget s "debt").getD []) d := by
  induction dates generalizing s with
  | nil => rfl
  | cons e ds ih =>
    simp only [List.mem_cons, not_or] at h
    have hstep : synthesize s (e :: ds) = synthesize (synthAt s e) ds := rfl
    rw [hstep, ih _ h.2, debt_lookup_synthAt_ne s (fun he => h.1 he.symm)]

/-- Claim C6: for a raw extracted series (which has no `debt` key) and any
duplicate-free iteration order of the observed dates, the synthesized `debt`
value at a date `d` of that order is recorded iff the borrowings sum
(short + long + bonds, absent components contributing 0) is non-zero, and
equals that sum; a zero sum leaves the date absent from the `debt` map. -/
theorem c6_debt_zero_guard (S : Series) (dates : List Nat) (d : Nat)
    (hmem : d ∈ dates) (hnd : dates.Nodup) (hS : sget S "debt" = none) :
    dget ((sget (synthesize S dates) "debt").getD []) d
      = if gvsum S d ≠ 0 then some (gvsum S d) else none := by
  obtain ⟨pre, post, rfl⟩ := List.append_of_mem hmem
  have hpost : d ∉ post := by
    have hdp : (d :: post).Nodup := hnd.of_append_right
    exact (List.nodup_cons.mp hdp).1
  have hpre : d ∉ pre := by
    rcases List.nodup_append.mp hnd with ⟨_, _, hdisj⟩
    intro hin
    exact hdisj hin (List.mem_cons_self d post)
  have hsplit : synthesize S (pre ++ d :: post)
      = synthesize (synthAt (synthesize S pre) d) post := by
    unfold synthesize
    rw [List.foldl_append]
    rfl
  rw [hsplit, debt_lookup_synthesize_notmem post _ hpost, debt_lookup_synthAt_self,
    gvsum_synthesize, debt_lookup_synthesize_notmem pre _ hpre, hS]
  simp [dget]

/-- A raw series with `debt_short = 100` at date 1 and `sales = 5` at
date 2 (all other concepts unobserved). -/
def c6Raw : Series := recordFact (recordFact emptySeries "debt_short" 1 100) "sales" 2 5

/-- Witness for C6 at a concrete series and a concrete date. -/
theorem c6_debt_zero_guard_witness :
    dget ((sget (synthesize c6Raw [1, 2]) "debt").getD []) 1
      = if gvsum c6Raw 1 ≠ 0 then some (gvsum c6Raw 1) else none :=
  c6_debt_zero_guard c6Raw [1, 2] 1 (by decide) (by decide) (by decide)

/-- The scan loop with every queried day yielding no document runs to the
end of its fuel and raises the not-found error carrying the accumulated
per-day counts followed by one count for each remaining day. -/
theorem searchAux_error (index : Nat → List Doc) (sec : Option String) :
    ∀ (fuel i : Nat) (acc : List (Nat × Nat)),
      (∀ j, i ≤ j → j < i + fuel → pickDebug (index j) sec = none) →
      searchAux index sec fuel i acc
        = .error ⟨sec, searchDays, acc ++ expectedCounts index i fuel⟩ := by
  intro fuel
  induction fuel with
  | zero =>
    intro i acc h
    simp [searchAux, expectedCounts]
  | succ f ih =>
    intro i acc h
    have h0 : pickDebug (index i) sec = none := h i (Nat.le_refl i) (by omega)
    have hrest : ∀ j, i + 1 ≤ j → j < (i + 1) + f → pickDebug (index j) sec = none :=
      fun j hj1 hj2 => h j (by omega) (by omega)
    simp only [searchAux, h0]
    rw [ih (i + 1) (acc ++ [(i, (index i).length)]) hrest]
    simp [expectedCounts]

/-- The accumulated per-day count list has one entry per scanned day. -/
theorem expectedCounts_length (index : Nat → List Doc) :
    ∀ (fuel i : Nat), (expectedCounts index i fuel).length = fuel := by
  intro fuel
  induction fuel with
  | zero => intro i; rfl
  | succ f ih => intro i; simp [expectedCounts, ih]

/-- Claim C7 as amended: if none of the scanned days yields a document, the
search raises the document-not-found error carrying the searched identifier
and one per-day result count for every scanned day — but the scan covers
only `min(10, search_days) = 10` days of the nominal 90-day window, so the
error carries exactly 10 per-day counts, never 30. -/
theorem c7_not_found (index : Nat → List Doc) (sec : Option String)
    (h : ∀ j, j < 10 → pickDebug (index j) sec = none) :
    autofillSearch index sec
      = .error ⟨sec, searchDays, expectedCounts index 0 10⟩ ∧
    (expectedCounts index 0 10).length = 10 := by
  constructor
  · have hsl : scanLimit = 10 := rfl
    unfold autofillSearch
    rw [hsl, searchAux_error index sec 10 0 [] (fun j h1 h2 => h j (by omega))]
    rfl
  · exact expectedCounts_length index 10 0

/-- Witness for the amended C7: an index that returns zero results on every
day produces the error with ten zero counts. -/
theorem c7_not_found_witness :
    autofillSearch (fun _ => []) (some "7203")
      = .error ⟨some "7203", searchDays, expectedCounts (fun _ => []) 0 10⟩ ∧
    (expectedCounts (fun _ => ([] : List Doc)) 0 10).length = 10 :=
  c7_not_found (fun _ => []) (some "7203")
    (fun j hj => by
      show pickDebug [] (some "7203") = none
      decide)

/-- Counterexample to claim C7 as stated: when the index returns zero
results for every day, the raised error carries 10 per-day zero counts —
not 30 — because the loop bound is `min(10, search_days)`. -/
theorem c7_counterexample :
    autofillSearch (fun _ => []) (some "7203")
      = .error ⟨some "7203", 90,
          [(0, 0), (1, 0), (2, 0), (3, 0), (4, 0), (5, 0), (6, 0), (7, 0), (8, 0), (9, 0)]⟩ ∧
    ¬ ∃ e : NotFoundError,
        autofillSearch (fun _ => []) (some "7203") = .error e ∧
        e.testResults.length = 30 := by
  have hrun : autofillSearch (fun _ => ([] : List Doc)) (some "7203")
      = .error ⟨some "7203", 90,
          [(0, 0), (1, 0), (2, 0), (3, 0), (4, 0), (5, 0), (6, 0), (7, 0), (8, 0), (9, 0)]⟩ := by
    rfl
  refine ⟨hrun, ?_⟩
  rintro ⟨e, he, hlen⟩
  rw [hrun] at he
  cases he
  simp at hlen

end StockApp
